import Mathlib

/-!
# Verification of `PrepareUpdate` (src/core/src/cli_commands/prepare_update.rs)

A shallow embedding of the chained-update-transaction orchestrator of the
oracle-core repository.  The orchestrator (`PrepareUpdate`) mints tokens,
builds the refresh protocol box and cascades contract-parameter rebuilds,
threading a remaining-transaction counter, the spendable box set and the
ordered log of signed transactions through each step, then submits the
whole log.

Modelling conventions:
* Machine integers are `Nat`.  `BoxValue` arithmetic (from ergo-lib) is
  checked against `BoxValue.MAX_RAW = i64::MAX`; Rust `u32` subtraction
  underflow is an arithmetic panic and is embedded as the distinguished
  error `PrepareUpdateError.underflowPanic` (the `u32sub` helper).
* External collaborators (node wallet, `SimpleBoxSelector`,
  `ErgoBoxCandidateBuilder.build`, `TxBuilder.build`, the signer, the
  submitter, and the contract registry of the repository's `contracts` /
  `box_kind` modules, which are outside the given sources) are a record
  `Env` of arbitrary functions; theorems quantify over every `Env`.
* Guard scripts (`ErgoTree`), box ids, token ids and addresses are `Nat`
  identities; only equality of these values matters to the orchestrator.
* Rust `&mut self` methods returning `Result` are embedded as functions
  `PrepState → Except PrepareUpdateError α × PrepState`: the returned
  state is the input state whenever an early `?`-return fires, exactly as
  the Rust code mutates `self` only after the last fallible call.
-/

/-- ergo-lib `BoxValue::MAX_RAW` (`i64::MAX`): the upper bound enforced by
`BoxValue::checked_mul_u32` and `BoxValue::checked_add`. -/
def BoxValueMAX : Nat := 9223372036854775807

/-- ergo-lib `BoxValueError` (only the overflow case is reachable from the
checked operations used here). -/
inductive BoxValueError where
  | overflow
deriving DecidableEq, Repr, Inhabited

/-- ergo-lib `BoxValue::checked_mul_u32`: errors when the product exceeds
`MAX_RAW` (a `u64` overflow also exceeds `MAX_RAW`, so one bound check
covers both). -/
def checkedMulU32 (v n : Nat) : Except BoxValueError Nat :=
  if v * n > BoxValueMAX then .error .overflow else .ok (v * n)

/-- ergo-lib `BoxValue::checked_add`: errors when the sum exceeds `MAX_RAW`. -/
def checkedAdd (a b : Nat) : Except BoxValueError Nat :=
  if a + b > BoxValueMAX then .error .overflow else .ok (a + b)

/-- Rust `u32` subtraction.  Underflow is an arithmetic panic (Rust defines
integer overflow as a program error; debug builds abort), embedded as an
`Except` error. -/
def u32sub (a b : Nat) : Except Unit Nat :=
  if b ≤ a then .ok (a - b) else .error ()

/-- ergo-lib `TokenAmount` bound (`1..=i64::MAX`); `quantity.try_into()`. -/
def tryIntoTokenAmount (q : Nat) : Except Unit Nat :=
  if 1 ≤ q ∧ q ≤ BoxValueMAX then .ok q else .error ()

/-- A token: identity plus amount (`ergo_lib::...::token::Token`). -/
structure Token where
  tokenId : Nat
  amount : Nat
deriving DecidableEq, Repr, Inhabited

/-- A UTXO box: identity, value, guard script and carried tokens
(`ergo_lib::...::ergo_box::ErgoBox`, the fields the orchestrator reads). -/
structure ErgoBox where
  boxId : Nat
  value : Nat
  ergoTree : Nat
  tokens : List Token
deriving DecidableEq, Repr, Inhabited

/-- An output candidate as assembled by `ErgoBoxCandidateBuilder::new`
(value, guard, creation height) plus a token minted via
`ErgoBoxCandidateBuilder::mint_token` (which also stores name/description). -/
structure ErgoBoxCandidate where
  value : Nat
  ergoTree : Nat
  creationHeight : Nat
  tokens : List Token
  mintedTokenName : Option String
  mintedTokenDesc : Option String
deriving DecidableEq, Repr, Inhabited

/-- An unsigned transaction: the declared input boxes and the output
candidates handed to the signer (user candidates first, then the
change/fee candidates appended by `TxBuilder::build`). -/
structure UnsignedTransaction where
  inputs : List ErgoBox
  outputCandidates : List ErgoBoxCandidate
deriving DecidableEq, Repr, Inhabited

/-- A signed transaction; the orchestrator only reads its `outputs`. -/
structure Transaction where
  outputs : List ErgoBox
deriving DecidableEq, Repr, Inhabited

/-- Embeds `NftMintDetails` (src/core/src/cli_commands/bootstrap.rs). -/
structure NftMintDetails where
  name : String
  description : String
deriving DecidableEq, Repr, Inhabited

/-- Embeds `TokenMintDetails` (src/core/src/cli_commands/bootstrap.rs). -/
structure TokenMintDetails where
  name : String
  description : String
  quantity : Nat
deriving DecidableEq, Repr, Inhabited

/-- Embeds `UpdateTokensToMint` (prepare_update.rs lines 66-73). -/
structure UpdateTokensToMint where
  refresh_nft : Option NftMintDetails
  update_nft : Option NftMintDetails
  oracle_tokens : Option TokenMintDetails
  ballot_tokens : Option TokenMintDetails
  reward_tokens : Option TokenMintDetails
deriving DecidableEq, Repr, Inhabited

/-- Opaque contract-parameter templates (guard-script bytes plus field
offsets); the orchestrator passes them through unchanged, so a `Nat`
identity suffices. -/
structure PoolContractParameters where
  raw : Nat
deriving DecidableEq, Repr, Inhabited

/-- Refresh-contract parameter template (opaque to the orchestrator). -/
structure RefreshContractParameters where
  raw : Nat
deriving DecidableEq, Repr, Inhabited

/-- Update-contract parameter template (opaque to the orchestrator). -/
structure UpdateContractParameters where
  raw : Nat
deriving DecidableEq, Repr, Inhabited

/-- Ballot-contract parameter template (opaque to the orchestrator). -/
structure BallotContractParameters where
  raw : Nat
deriving DecidableEq, Repr, Inhabited

/-- Embeds `UpdateBootstrapConfig` (prepare_update.rs lines 75-81). -/
structure UpdateBootstrapConfig where
  pool_contract_parameters : Option PoolContractParameters
  refresh_contract_parameters : Option RefreshContractParameters
  update_contract_parameters : Option UpdateContractParameters
  tokens_to_mint : UpdateTokensToMint
deriving DecidableEq, Repr, Inhabited

/-- Modelled from the spec: `RefreshContractInputs` (crate module
`contracts::refresh`, not among the given sources) packages the refresh
parameter template with the oracle token id and the pool-NFT id it embeds. -/
structure RefreshContractInputs where
  contract_parameters : RefreshContractParameters
  oracle_token_id : Nat
  pool_nft_token_id : Nat
deriving DecidableEq, Repr, Inhabited

/-- Modelled from the spec: `UpdateContractInputs` (crate module
`contracts::update`, not among the given sources) packages the update
parameter template with the pool-NFT id and ballot token id it embeds. -/
structure UpdateContractInputs where
  contract_parameters : UpdateContractParameters
  pool_nft_token_id : Nat
  ballot_token_id : Nat
deriving DecidableEq, Repr, Inhabited

/-- Modelled from the spec: `BallotContractInputs` (crate module
`contracts::ballot`, not among the given sources): ballot template plus the
update-NFT id it embeds. -/
structure BallotContractInputs where
  contract_parameters : BallotContractParameters
  update_nft_token_id : Nat
deriving DecidableEq, Repr, Inhabited

/-- Modelled from the spec: `PoolContractInputs` (crate module
`contracts::pool`, not among the given sources): pool template plus the
refresh-NFT and update-NFT ids it embeds. -/
structure PoolContractInputs where
  contract_parameters : PoolContractParameters
  refresh_nft_token_id : Nat
  update_nft_token_id : Nat
deriving DecidableEq, Repr, Inhabited

/-- A loaded refresh contract; the orchestrator only uses its guard script. -/
structure RefreshContract where
  ergoTree : Nat
deriving DecidableEq, Repr, Inhabited

/-- A loaded update contract; the orchestrator only uses its guard script. -/
structure UpdateContract where
  ergoTree : Nat
deriving DecidableEq, Repr, Inhabited

/-- Embeds `RefreshBoxWrapperInputs` (crate module `box_kind`). -/
structure RefreshBoxWrapperInputs where
  contract_inputs : RefreshContractInputs
  refresh_nft_token_id : Nat
deriving DecidableEq, Repr, Inhabited

/-- Embeds `UpdateBoxWrapperInputs` (crate module `box_kind`). -/
structure UpdateBoxWrapperInputs where
  contract_inputs : UpdateContractInputs
  update_nft_token_id : Nat
deriving DecidableEq, Repr, Inhabited

/-- Embeds `BallotBoxWrapperInputs` (crate module `box_kind`). -/
structure BallotBoxWrapperInputs where
  contract_inputs : BallotContractInputs
  ballot_token_id : Nat
deriving DecidableEq, Repr, Inhabited

/-- Embeds `PoolBoxWrapperInputs` (crate module `box_kind`). -/
structure PoolBoxWrapperInputs where
  contract_inputs : PoolContractInputs
  pool_nft_token_id : Nat
  reward_token_id : Nat
deriving DecidableEq, Repr, Inhabited

/-- The asset-identity registry of the configuration (`TokenIds`). -/
structure TokenIds where
  pool_nft_token_id : Nat
  refresh_nft_token_id : Nat
  update_nft_token_id : Nat
  oracle_token_id : Nat
  reward_token_id : Nat
  ballot_token_id : Nat
deriving DecidableEq, Repr, Inhabited

/-- Embeds `OracleConfig`: the fields read or written by `PrepareUpdate::execute`.
`oracle_address_script` is the guard script resolved from
`oracle_address.address().script()`. -/
structure OracleConfig where
  oracle_address_script : Nat
  token_ids : TokenIds
  refresh_box_wrapper_inputs : RefreshBoxWrapperInputs
  update_box_wrapper_inputs : UpdateBoxWrapperInputs
  ballot_box_wrapper_inputs : BallotBoxWrapperInputs
  pool_box_wrapper_inputs : PoolBoxWrapperInputs
deriving DecidableEq, Repr, Inhabited

/-- Embeds `PrepareUpdateError` (prepare_update.rs lines 505-547), restricted to
the variants reachable from `execute`, plus `underflowPanic` for a Rust
arithmetic underflow (a panic, not an `Err`, in the source). -/
inductive PrepareUpdateError where
  | txBuilder
  | ergoBoxCandidateBuilder
  | node
  | boxSelector
  | boxValue (e : BoxValueError)
  | refreshContract
  | updateContract
  | poolContract
  | ballotContract
  | walletData
  | noMintDetails
  | underflowPanic
  | unwrapPanic
deriving DecidableEq, Repr, Inhabited

/-- Embeds `PrepareUpdateInput` (prepare_update.rs lines 180-188): the value
fields; the collaborator references are in `Env`. -/
structure PrepareUpdateInput where
  tx_fee : Nat
  erg_value_per_box : Nat
  change_address : Nat
  height : Nat
deriving DecidableEq, Repr, Inhabited

/-- The external collaborators, as arbitrary functions: wallet data source,
`SimpleBoxSelector::select` (its nonempty selection is returned as
head/tail), `ErgoBoxCandidateBuilder::build` (validation gate on the
deterministically assembled candidate), `TxBuilder::build` (returns the
change and fee candidates it appends, or fails), the signer, the
submitter, and the contract registry (`build_with` validation gates and
`checked_load`). -/
structure Env where
  get_unspent_wallet_boxes : Except Unit (List ErgoBox)
  select : List ErgoBox → Nat → List Token → Except Unit (ErgoBox × List ErgoBox)
  candidateOk : ErgoBoxCandidate → Bool
  txBuild : List ErgoBox → List ErgoBoxCandidate → Nat → Nat → Nat →
      Except Unit (List ErgoBoxCandidate)
  sign : UnsignedTransaction → List ErgoBox → Except Unit Transaction
  submit : Transaction → Except Unit Nat
  refreshInputsOk : RefreshContractParameters → Nat → Nat → Bool
  refreshLoad : RefreshContractInputs → Except Unit RefreshContract
  updateInputsOk : UpdateContractParameters → Nat → Nat → Bool
  updateLoad : UpdateContractInputs → Except Unit UpdateContract
  ballotInputsOk : BallotContractParameters → Nat → Nat → Bool
  poolInputsOk : PoolContractParameters → Nat → Nat → Nat → Nat → Bool

/-- The construction context of a `PrepareUpdate` value: the input record,
the starting configuration (`self.config`) and the wallet guard script
computed once in `PrepareUpdate::new`. -/
structure Ctx where
  input : PrepareUpdateInput
  config : OracleConfig
  wallet_pk_ergo_tree : Nat
deriving DecidableEq, Repr, Inhabited

/-- Embeds `PrepareUpdate::new` (lines 200-213): resolves the wallet guard script
from the configured oracle address and starts with empty mutable state. -/
def PrepareUpdateNew (input : PrepareUpdateInput) (config : OracleConfig) : Ctx :=
  { input := input, config := config,
    wallet_pk_ergo_tree := config.oracle_address_script }

/-- The mutable orchestrator state threaded through the steps
(`num_transactions_left`, `inputs_for_next_tx`, `built_txs`). -/
structure PrepState where
  num_transactions_left : Nat
  inputs_for_next_tx : List ErgoBox
  built_txs : List Transaction
deriving DecidableEq, Repr, Inhabited

/-- Embeds `PrepareUpdate::calc_target_balance` (lines 215-222):
`erg_value_per_box * n` plus `tx_fee * n`, all checked. -/
def calcTargetBalance (ctx : Ctx) (num_transactions : Nat) :
    Except BoxValueError Nat := do
  let b ← checkedMulU32 ctx.input.erg_value_per_box num_transactions
  let fees ← checkedMulU32 ctx.input.tx_fee num_transactions
  checkedAdd b fees

/-- Embeds `PrepareUpdate::filter_tx_outputs` (lines 324-329): keep only the
outputs guarded by the operator's wallet script. -/
def filterTxOutputs (ctx : Ctx) (outputs : List ErgoBox) : List ErgoBox :=
  outputs.filter (fun b => b.ergoTree == ctx.wallet_pk_ergo_tree)

/-- Embeds `PrepareUpdate::mint_token` (lines 224-276).  Order of operations as in
the source: target balance for the current counter, box selection, token
id from the first selected box, minted-output candidate (guard override or
wallet), remainder candidate for `num_transactions_left - 1` (the Rust
`u32` subtraction), `TxBuilder::build`, signing; only then the counter is
decremented, the signed transaction appended and the spendable set
replaced by the wallet-guarded outputs.  On any failure the state is
returned unchanged, as the Rust method mutates `self` only after the last
`?`. -/
def mintToken (env : Env) (ctx : Ctx) (token_name token_desc : String)
    (token_amount : Nat) (different_token_box_guard : Option Nat)
    (st : PrepState) : Except PrepareUpdateError Token × PrepState :=
  match calcTargetBalance ctx st.num_transactions_left with
  | .error e => (.error (.boxValue e), st)
  | .ok target_balance =>
    match env.select st.inputs_for_next_tx target_balance [] with
    | .error _ => (.error .boxSelector, st)
    | .ok (first_box, rest_boxes) =>
      let token : Token := { tokenId := first_box.boxId, amount := token_amount }
      let token_box_guard :=
        different_token_box_guard.getD ctx.wallet_pk_ergo_tree
      let mint_candidate : ErgoBoxCandidate :=
        { value := ctx.input.erg_value_per_box, ergoTree := token_box_guard,
          creationHeight := ctx.input.height, tokens := [token],
          mintedTokenName := some token_name,
          mintedTokenDesc := some token_desc }
      if env.candidateOk mint_candidate then
        match u32sub st.num_transactions_left 1 with
        | .error _ => (.error .underflowPanic, st)
        | .ok n' =>
          match calcTargetBalance ctx n' with
          | .error e => (.error (.boxValue e), st)
          | .ok remaining_value =>
            let remaining_funds : ErgoBoxCandidate :=
              { value := remaining_value,
                ergoTree := ctx.wallet_pk_ergo_tree,
                creationHeight := ctx.input.height, tokens := [],
                mintedTokenName := none, mintedTokenDesc := none }
            if env.candidateOk remaining_funds then
              let inputs := first_box :: rest_boxes
              match env.txBuild inputs [mint_candidate, remaining_funds]
                  ctx.input.height ctx.input.tx_fee ctx.input.change_address with
              | .error _ => (.error .txBuilder, st)
              | .ok extra =>
                let unsigned : UnsignedTransaction :=
                  { inputs := inputs,
                    outputCandidates := [mint_candidate, remaining_funds] ++ extra }
                match env.sign unsigned inputs with
                | .error _ => (.error .node, st)
                | .ok signed_tx =>
                  (.ok token,
                   { num_transactions_left := st.num_transactions_left - 1,
                     inputs_for_next_tx := filterTxOutputs ctx signed_tx.outputs,
                     built_txs := st.built_txs ++ [signed_tx] })
            else (.error .ergoBoxCandidateBuilder, st)
      else (.error .ergoBoxCandidateBuilder, st)

/-- Embeds `PrepareUpdate::build_refresh_box` (lines 278-320).  The refresh box
candidate (`make_refresh_box_candidate` of `box_kind`, modelled from the
spec: value, guard = contract script, carried asset = refresh NFT) comes
first, then selection with the refresh NFT as required asset, the
remainder candidate for `num_transactions_left - 1`, `TxBuilder::build`
and signing; mutations happen only after signing succeeds. -/
def buildRefreshBox (env : Env) (ctx : Ctx) (contract : RefreshContract)
    (refresh_nft_token : Token) (st : PrepState) :
    Except PrepareUpdateError Transaction × PrepState :=
  let refresh_box_candidate : ErgoBoxCandidate :=
    { value := ctx.input.erg_value_per_box, ergoTree := contract.ergoTree,
      creationHeight := ctx.input.height, tokens := [refresh_nft_token],
      mintedTokenName := none, mintedTokenDesc := none }
  if env.candidateOk refresh_box_candidate then
    match calcTargetBalance ctx st.num_transactions_left with
    | .error e => (.error (.boxValue e), st)
    | .ok target_balance =>
      match env.select st.inputs_for_next_tx target_balance [refresh_nft_token] with
      | .error _ => (.error .boxSelector, st)
      | .ok (first_box, rest_boxes) =>
        match u32sub st.num_transactions_left 1 with
        | .error _ => (.error .underflowPanic, st)
        | .ok n' =>
          match calcTargetBalance ctx n' with
          | .error e => (.error (.boxValue e), st)
          | .ok remaining_value =>
            let remaining_funds : ErgoBoxCandidate :=
              { value := remaining_value,
                ergoTree := ctx.wallet_pk_ergo_tree,
                creationHeight := ctx.input.height, tokens := [],
                mintedTokenName := none, mintedTokenDesc := none }
            if env.candidateOk remaining_funds then
              let inputs := first_box :: rest_boxes
              match env.txBuild inputs [refresh_box_candidate, remaining_funds]
                  ctx.input.height ctx.input.tx_fee ctx.input.change_address with
              | .error _ => (.error .txBuilder, st)
              | .ok extra =>
                let unsigned : UnsignedTransaction :=
                  { inputs := inputs,
                    outputCandidates := [refresh_box_candidate, remaining_funds] ++ extra }
                match env.sign unsigned inputs with
                | .error _ => (.error .node, st)
                | .ok signed_refresh_box_tx =>
                  (.ok signed_refresh_box_tx,
                   { num_transactions_left := st.num_transactions_left - 1,
                     inputs_for_next_tx :=
                       filterTxOutputs ctx signed_refresh_box_tx.outputs,
                     built_txs := st.built_txs ++ [signed_refresh_box_tx] })
            else (.error .ergoBoxCandidateBuilder, st)
  else (.error .ergoBoxCandidateBuilder, st)

/-- The state local to one run of `execute`: the orchestrator state, the
working copy `new_oracle_config` and the two cascade flags
(`need_pool_contract_update`, `need_ballot_contract_update`). -/
structure ExecSt where
  prep : PrepState
  new_oracle_config : OracleConfig
  need_pool_contract_update : Bool
  need_ballot_contract_update : Bool
deriving DecidableEq, Repr, Inhabited

/-- Embeds `execute` lines 335-350: fix the budget at 7, pull the wallet's
unspent boxes, cover `calc_target_balance(7)` and make the selected boxes
the first spendable set; the working configuration starts as a copy of
`self.config` and both cascade flags start false. -/
def initStep (env : Env) (ctx : Ctx) : Except PrepareUpdateError ExecSt :=
  match env.get_unspent_wallet_boxes with
  | .error _ => .error .walletData
  | .ok unspent_boxes =>
    match calcTargetBalance ctx 7 with
    | .error e => .error (.boxValue e)
    | .ok target_balance =>
      match env.select unspent_boxes target_balance [] with
      | .error _ => .error .boxSelector
      | .ok (first_box, rest_boxes) =>
        .ok { prep := { num_transactions_left := 7,
                        inputs_for_next_tx := first_box :: rest_boxes,
                        built_txs := [] },
              new_oracle_config := ctx.config,
              need_pool_contract_update := false,
              need_ballot_contract_update := false }

/-- Embeds `execute` lines 352-362: optional oracle-token mint; on success the
minted identity is recorded as the new `oracle_token_id`. -/
def mintOracleStep (env : Env) (ctx : Ctx) (details : Option TokenMintDetails)
    (s : ExecSt) : Except PrepareUpdateError ExecSt :=
  match details with
  | none => .ok s
  | some d =>
    match tryIntoTokenAmount d.quantity with
    | .error _ => .error .unwrapPanic
    | .ok amount =>
      match mintToken env ctx d.name d.description amount none s.prep with
      | (.error e, _) => .error e
      | (.ok token, prep') =>
        .ok { s with
              prep := prep',
              new_oracle_config := { s.new_oracle_config with
                token_ids := { s.new_oracle_config.token_ids with
                  oracle_token_id := token.tokenId } } }

/-- Embeds `execute` lines 363-373: optional ballot-token mint; on success the
minted identity is recorded as the new `ballot_token_id`. -/
def mintBallotStep (env : Env) (ctx : Ctx) (details : Option TokenMintDetails)
    (s : ExecSt) : Except PrepareUpdateError ExecSt :=
  match details with
  | none => .ok s
  | some d =>
    match tryIntoTokenAmount d.quantity with
    | .error _ => .error .unwrapPanic
    | .ok amount =>
      match mintToken env ctx d.name d.description amount none s.prep with
      | (.error e, _) => .error e
      | (.ok token, prep') =>
        .ok { s with
              prep := prep',
              new_oracle_config := { s.new_oracle_config with
                token_ids := { s.new_oracle_config.token_ids with
                  ballot_token_id := token.tokenId } } }

/-- Embeds `execute` lines 374-384: optional reward-token mint; on success the
minted identity is recorded as the new `reward_token_id`. -/
def mintRewardStep (env : Env) (ctx : Ctx) (details : Option TokenMintDetails)
    (s : ExecSt) : Except PrepareUpdateError ExecSt :=
  match details with
  | none => .ok s
  | some d =>
    match tryIntoTokenAmount d.quantity with
    | .error _ => .error .unwrapPanic
    | .ok amount =>
      match mintToken env ctx d.name d.description amount none s.prep with
      | (.error e, _) => .error e
      | (.ok token, prep') =>
        .ok { s with
              prep := prep',
              new_oracle_config := { s.new_oracle_config with
                token_ids := { s.new_oracle_config.token_ids with
                  reward_token_id := token.tokenId } } }

/-- Embeds `execute` lines 385-425: if refresh parameters were supplied or oracle
tokens were just minted, require refresh-NFT mint details (else
`NoMintDetails`), mint the refresh NFT (wallet-guarded), build the refresh
contract inputs from the (possibly previous) template, the working
configuration's oracle token id and the ORIGINAL configuration's pool-NFT
id (`self.config`, line 414), load the refresh contract
(`RefreshContract::checked_load`, modelled from the spec as the registry
collaborator), store the new wrapper inputs, build and sign the refresh
box, and mark `need_pool_contract_update`. -/
def refreshStep (env : Env) (ctx : Ctx) (config : UpdateBootstrapConfig)
    (s : ExecSt) : Except PrepareUpdateError ExecSt :=
  if config.refresh_contract_parameters.isSome
      || config.tokens_to_mint.oracle_tokens.isSome then
    let contract_parameters := config.refresh_contract_parameters.getD
      s.new_oracle_config.refresh_box_wrapper_inputs.contract_inputs.contract_parameters
    match config.tokens_to_mint.refresh_nft with
    | none => .error .noMintDetails
    | some refresh_nft_details =>
      match mintToken env ctx refresh_nft_details.name
          refresh_nft_details.description 1 none s.prep with
      | (.error e, _) => .error e
      | (.ok token, prep') =>
        let cfg1 := { s.new_oracle_config with
          token_ids := { s.new_oracle_config.token_ids with
            refresh_nft_token_id := token.tokenId } }
        -- RefreshContractInputs::build_with (modelled from the spec:
        -- validation gate, then packaging of template + dependent ids)
        if env.refreshInputsOk contract_parameters
            cfg1.token_ids.oracle_token_id
            ctx.config.token_ids.pool_nft_token_id then
          let refresh_contract_inputs : RefreshContractInputs :=
            { contract_parameters := contract_parameters,
              oracle_token_id := cfg1.token_ids.oracle_token_id,
              pool_nft_token_id := ctx.config.token_ids.pool_nft_token_id }
          match env.refreshLoad refresh_contract_inputs with
          | .error _ => .error .refreshContract
          | .ok refresh_contract =>
            let cfg2 := { cfg1 with
              refresh_box_wrapper_inputs :=
                { contract_inputs := refresh_contract_inputs,
                  refresh_nft_token_id := cfg1.token_ids.refresh_nft_token_id } }
            match buildRefreshBox env ctx refresh_contract token prep' with
            | (.error e, _) => .error e
            | (.ok _, prep'') =>
              .ok { prep := prep'', new_oracle_config := cfg2,
                    need_pool_contract_update := true,
                    need_ballot_contract_update := s.need_ballot_contract_update }
        else .error .refreshContract
  else .ok s

/-- Embeds `execute` lines 427-464: if update parameters were supplied or ballot
tokens were just minted, rebuild the update contract inputs from the
(possibly previous) template and the working pool-NFT/ballot ids, load the
update contract, require update-NFT mint details (else `NoMintDetails`),
mint the update NFT GUARDED BY THE UPDATE CONTRACT'S SCRIPT, store the new
wrapper inputs, and mark both cascade flags. -/
def updateStep (env : Env) (ctx : Ctx) (config : UpdateBootstrapConfig)
    (s : ExecSt) : Except PrepareUpdateError ExecSt :=
  if config.update_contract_parameters.isSome
      || config.tokens_to_mint.ballot_tokens.isSome then
    let update_contract_parameters := config.update_contract_parameters.getD
      s.new_oracle_config.update_box_wrapper_inputs.contract_inputs.contract_parameters
    -- UpdateContractInputs::build_with (modelled from the spec)
    if env.updateInputsOk update_contract_parameters
        s.new_oracle_config.token_ids.pool_nft_token_id
        s.new_oracle_config.token_ids.ballot_token_id then
      let update_contract_inputs : UpdateContractInputs :=
        { contract_parameters := update_contract_parameters,
          pool_nft_token_id := s.new_oracle_config.token_ids.pool_nft_token_id,
          ballot_token_id := s.new_oracle_config.token_ids.ballot_token_id }
      match env.updateLoad update_contract_inputs with
      | .error _ => .error .updateContract
      | .ok update_contract =>
        match config.tokens_to_mint.update_nft with
        | none => .error .noMintDetails
        | some update_nft_details =>
          match mintToken env ctx update_nft_details.name
              update_nft_details.description 1
              (some update_contract.ergoTree) s.prep with
          | (.error e, _) => .error e
          | (.ok token, prep') =>
            let cfg1 := { s.new_oracle_config with
              token_ids := { s.new_oracle_config.token_ids with
                update_nft_token_id := token.tokenId } }
            .ok { prep := prep',
                  new_oracle_config := { cfg1 with
                    update_box_wrapper_inputs :=
                      { contract_inputs := update_contract_inputs,
                        update_nft_token_id := cfg1.token_ids.update_nft_token_id } },
                  need_ballot_contract_update := true,
                  need_pool_contract_update := true }
    else .error .updateContract
  else .ok s

/-- Embeds `execute` lines 466-476: if the ballot cascade flag is set, rebuild
the ballot wrapper inputs from the previous ballot template and the
working ballot / update-NFT ids (`BallotBoxWrapperInputs::build_with`,
modelled from the spec). -/
def ballotCascadeStep (env : Env) (s : ExecSt) :
    Except PrepareUpdateError ExecSt :=
  if s.need_ballot_contract_update then
    let params :=
      s.new_oracle_config.ballot_box_wrapper_inputs.contract_inputs.contract_parameters
    if env.ballotInputsOk params
        s.new_oracle_config.token_ids.ballot_token_id
        s.new_oracle_config.token_ids.update_nft_token_id then
      .ok { s with new_oracle_config := { s.new_oracle_config with
              ballot_box_wrapper_inputs :=
                { contract_inputs :=
                    { contract_parameters := params,
                      update_nft_token_id :=
                        s.new_oracle_config.token_ids.update_nft_token_id },
                  ballot_token_id :=
                    s.new_oracle_config.token_ids.ballot_token_id } } }
    else .error .ballotContract
  else .ok s

/-- Embeds `execute` lines 478-495: if pool parameters were supplied or the pool
cascade flag is set, rebuild the pool wrapper inputs from the (possibly
previous) pool template and the working refresh-NFT, update-NFT, pool-NFT
and reward ids (`PoolBoxWrapperInputs::build_with`, modelled from the
spec). -/
def poolCascadeStep (env : Env) (config : UpdateBootstrapConfig)
    (s : ExecSt) : Except PrepareUpdateError ExecSt :=
  if config.pool_contract_parameters.isSome || s.need_pool_contract_update then
    let new_pool_contract_parameters := config.pool_contract_parameters.getD
      s.new_oracle_config.pool_box_wrapper_inputs.contract_inputs.contract_parameters
    if env.poolInputsOk new_pool_contract_parameters
        s.new_oracle_config.token_ids.refresh_nft_token_id
        s.new_oracle_config.token_ids.update_nft_token_id
        s.new_oracle_config.token_ids.pool_nft_token_id
        s.new_oracle_config.token_ids.reward_token_id then
      .ok { s with new_oracle_config := { s.new_oracle_config with
              pool_box_wrapper_inputs :=
                { contract_inputs :=
                    { contract_parameters := new_pool_contract_parameters,
                      refresh_nft_token_id :=
                        s.new_oracle_config.token_ids.refresh_nft_token_id,
                      update_nft_token_id :=
                        s.new_oracle_config.token_ids.update_nft_token_id },
                  pool_nft_token_id :=
                    s.new_oracle_config.token_ids.pool_nft_token_id,
                  reward_token_id :=
                    s.new_oracle_config.token_ids.reward_token_id } } }
    else .error .poolContract
  else .ok s

/-- Embeds `PrepareUpdate::execute`, lines 331-495: everything before the final
submission loop. -/
def executeSteps (env : Env) (ctx : Ctx) (config : UpdateBootstrapConfig) :
    Except PrepareUpdateError ExecSt := do
  let s0 ← initStep env ctx
  let s1 ← mintOracleStep env ctx config.tokens_to_mint.oracle_tokens s0
  let s2 ← mintBallotStep env ctx config.tokens_to_mint.ballot_tokens s1
  let s3 ← mintRewardStep env ctx config.tokens_to_mint.reward_tokens s2
  let s4 ← refreshStep env ctx config s3
  let s5 ← updateStep env ctx config s4
  let s6 ← ballotCascadeStep env s5
  poolCascadeStep env config s6

/-- Embeds `execute` lines 497-500: submit every built transaction in order,
stopping at the first failure.  Returns the outcome together with the list
of transactions actually submitted (in submission order). -/
def submitAll (env : Env) : List Transaction →
    Except PrepareUpdateError Unit × List Transaction
  | [] => (.ok (), [])
  | tx :: rest =>
    match env.submit tx with
    | .error _ => (.error .node, [])
    | .ok _ =>
      let (r, submitted) := submitAll env rest
      (r, tx :: submitted)

/-- Embeds `PrepareUpdate::execute` (lines 331-502): the pre-broadcast steps
followed by the submission loop.  Returns the `Result` together with the
list of transactions actually submitted. -/
def execute (env : Env) (ctx : Ctx) (config : UpdateBootstrapConfig) :
    Except PrepareUpdateError OracleConfig × List Transaction :=
  match executeSteps env ctx config with
  | .error e => (.error e, [])
  | .ok s =>
    match submitAll env s.prep.built_txs with
    | (.error e, submitted) => (.error e, submitted)
    | (.ok _, submitted) => (.ok s.new_oracle_config, submitted)

/-! ## Concrete fixtures (used by witnesses and counterexamples) -/

/-- A concrete asset-identity registry for test configurations. -/
def tIds : TokenIds :=
  { pool_nft_token_id := 1, refresh_nft_token_id := 2,
    update_nft_token_id := 3, oracle_token_id := 4,
    reward_token_id := 5, ballot_token_id := 6 }

/-- A concrete starting oracle configuration. -/
def cfgT : OracleConfig :=
  { oracle_address_script := 100,
    token_ids := tIds,
    refresh_box_wrapper_inputs :=
      { contract_inputs :=
          { contract_parameters := ⟨20⟩,
            oracle_token_id := 4,
            pool_nft_token_id := 1 },
        refresh_nft_token_id := 2 },
    update_box_wrapper_inputs :=
      { contract_inputs :=
          { contract_parameters := ⟨21⟩,
            pool_nft_token_id := 1,
            ballot_token_id := 6 },
        update_nft_token_id := 3 },
    ballot_box_wrapper_inputs :=
      { contract_inputs :=
          { contract_parameters := ⟨22⟩,
            update_nft_token_id := 3 },
        ballot_token_id := 6 },
    pool_box_wrapper_inputs :=
      { contract_inputs :=
          { contract_parameters := ⟨23⟩,
            refresh_nft_token_id := 2,
            update_nft_token_id := 3 },
        pool_nft_token_id := 1,
        reward_token_id := 5 } }

/-- A concrete orchestrator context over `cfgT`. -/
def ctxT : Ctx :=
  PrepareUpdateNew
    { tx_fee := 10, erg_value_per_box := 10, change_address := 9, height := 42 }
    cfgT

/-- A concrete all-succeeding environment: the selector returns its whole
candidate list (head first), every validation gate passes, the signer
derives one output box per candidate, and submission succeeds. -/
def envT : Env :=
  { get_unspent_wallet_boxes :=
      .ok [{ boxId := 11, value := 1000000, ergoTree := 100, tokens := [] }],
    select := fun candidates _ _ =>
      match candidates with
      | [] => .error ()
      | b :: bs => .ok (b, bs),
    candidateOk := fun _ => true,
    txBuild := fun _ _ _ _ _ => .ok [],
    sign := fun utx _ =>
      .ok { outputs := utx.outputCandidates.map (fun c =>
              { boxId := c.value + c.ergoTree, value := c.value,
                ergoTree := c.ergoTree, tokens := c.tokens }) },
    submit := fun _ => .ok 7,
    refreshInputsOk := fun _ _ _ => true,
    refreshLoad := fun _ => .ok ⟨200⟩,
    updateInputsOk := fun _ _ _ => true,
    updateLoad := fun _ => .ok ⟨300⟩,
    ballotInputsOk := fun _ _ _ => true,
    poolInputsOk := fun _ _ _ _ _ => true }

/-- A full update specification: every token minted, all new parameters. -/
def cfgFull : UpdateBootstrapConfig :=
  { pool_contract_parameters := some ⟨33⟩,
    refresh_contract_parameters := some ⟨34⟩,
    update_contract_parameters := some ⟨35⟩,
    tokens_to_mint :=
      { refresh_nft := some { name := "r", description := "r" },
        update_nft := some { name := "u", description := "u" },
        oracle_tokens := some { name := "o", description := "o", quantity := 15 },
        ballot_tokens := some { name := "b", description := "b", quantity := 15 },
        reward_tokens := some { name := "w", description := "w", quantity := 100 } } }

/-- Scenario A of the spec: only an oracle-asset mint is requested —
no other mint details and no new contract parameters. -/
def cfgOracleOnly : UpdateBootstrapConfig :=
  { pool_contract_parameters := none,
    refresh_contract_parameters := none,
    update_contract_parameters := none,
    tokens_to_mint :=
      { refresh_nft := none,
        update_nft := none,
        oracle_tokens := some { name := "o", description := "o", quantity := 15 },
        ballot_tokens := none,
        reward_tokens := none } }

/-! ## Witness fixtures -/

/-- A two-transactions-left state holding one wallet box. -/
def stW : PrepState :=
  { num_transactions_left := 2,
    inputs_for_next_tx :=
      [{ boxId := 50, value := 500, ergoTree := 100, tokens := [] }],
    built_txs := [] }

/-- The zero-budget state. -/
def stZ : PrepState :=
  { num_transactions_left := 0, inputs_for_next_tx := [], built_txs := [] }

/-- The token minted from `stW` by `envT` (id = first selected box). -/
def tokW : Token := { tokenId := 50, amount := 5 }

/-- State after the witness mint step. -/
def stW2 : PrepState := (mintToken envT ctxT "t" "d" 5 none stW).2

/-- Transaction returned by the witness refresh-box build. -/
def brWtx : Transaction :=
  match (buildRefreshBox envT ctxT ⟨200⟩ tokW stW).1 with
  | .ok tx => tx
  | .error _ => { outputs := [] }

/-- State after the witness refresh-box build. -/
def stW3 : PrepState := (buildRefreshBox envT ctxT ⟨200⟩ tokW stW).2

/-- The final state of a fully successful run over `cfgFull`. -/
def sC : ExecSt :=
  match executeSteps envT ctxT cfgFull with
  | .ok s => s
  | .error _ => default

/-- Variant of `envT` with a failing wallet-data source. -/
def envW6 : Env := { envT with get_unspent_wallet_boxes := .error () }

/-- A context whose per-box value makes any balance computation overflow. -/
def ctxBig : Ctx :=
  PrepareUpdateNew
    { tx_fee := 1, erg_value_per_box := BoxValueMAX,
      change_address := 0, height := 0 }
    cfgT


/-- Whether the submitter accepts a transaction (used to state the
broadcast-prefix property). -/
def submitOk (env : Env) (tx : Transaction) : Bool :=
  match env.submit tx with
  | .ok _ => true
  | .error _ => false


/-! ## Helper lemmas -/

/-- Inversion of `Except` bind on a success. -/
theorem exceptBind_ok {ε α β : Type} {x : Except ε α} {f : α → Except ε β}
    {b : β} : (x >>= f) = .ok b ↔ ∃ a, x = .ok a ∧ f a = .ok b := by
  cases x <;> simp [Bind.bind, Except.bind]

/-- Inversion of `Except` bind on a failure. -/
theorem exceptBind_err {ε α β : Type} {x : Except ε α} {f : α → Except ε β}
    {e : ε} : (x >>= f) = .error e ↔
      x = .error e ∨ ∃ a, x = .ok a ∧ f a = .error e := by
  cases x <;> simp [Bind.bind, Except.bind]

theorem mintToken_ok_inv {env : Env} {ctx : Ctx} {tn td : String} {ta : Nat}
    {g : Option Nat} {st : PrepState} {tok : Token} {st' : PrepState}
    (h : mintToken env ctx tn td ta g st = (.ok tok, st')) :
    1 ≤ st.num_transactions_left ∧
    ∃ tb b0 rest utx tx,
      calcTargetBalance ctx st.num_transactions_left = .ok tb ∧
      env.select st.inputs_for_next_tx tb [] = .ok (b0, rest) ∧
      tok.tokenId = b0.boxId ∧ tok.amount = ta ∧
      utx.inputs = b0 :: rest ∧
      (utx.outputCandidates.head?.map ErgoBoxCandidate.ergoTree) =
        some (g.getD ctx.wallet_pk_ergo_tree) ∧
      env.sign utx (b0 :: rest) = .ok tx ∧
      st' = { num_transactions_left := st.num_transactions_left - 1,
              inputs_for_next_tx := filterTxOutputs ctx tx.outputs,
              built_txs := st.built_txs ++ [tx] } := by
  unfold mintToken at h
  iterate 14 (all_goals (try (first | split at h | simp only [] at h)))
  all_goals injection h with h1 h2
  all_goals try injection h1
  rename_i x5 tb htb x4 b0 rest hsel x3 n1 hsub x2 rv hrv hc1 hc2 x1 extra hbld x0 tx hsign h1
  subst h1
  subst h2
  have hn : 1 ≤ st.num_transactions_left := by
    unfold u32sub at hsub
    split at hsub
    · assumption
    · exact absurd hsub (by simp)
  refine ⟨hn, tb, b0, rest, _, tx, htb, hsel, rfl, rfl, rfl, ?_, hsign, rfl⟩
  rfl

theorem u32sub_ok_le {a b n : Nat} (h : u32sub a b = .ok n) : b ≤ a := by
  unfold u32sub at h
  split at h
  · assumption
  · exact absurd h (by simp)

theorem u32sub_ok_val {a b n : Nat} (h : u32sub a b = .ok n) : n = a - b := by
  unfold u32sub at h
  split at h
  · exact (Except.ok.injEq _ _).mp h.symm
  · exact absurd h (by simp)

theorem mintToken_error_state {env : Env} {ctx : Ctx} {tn td : String}
    {ta : Nat} {g : Option Nat} {st : PrepState} {e : PrepareUpdateError}
    {st2 : PrepState} (h : mintToken env ctx tn td ta g st = (.error e, st2)) :
    st2 = st := by
  unfold mintToken at h
  iterate 14 (all_goals (try (first | split at h | simp only [] at h)))
  all_goals injection h with h1 h2
  all_goals try injection h1
  all_goals exact h2.symm

theorem mintToken_zero {env : Env} {ctx : Ctx} {tn td : String} {ta : Nat}
    {g : Option Nat} {st : PrepState} (hz : st.num_transactions_left = 0) :
    ∃ e, (mintToken env ctx tn td ta g st).1 = .error e := by
  cases hr : (mintToken env ctx tn td ta g st).1 with
  | error e => exact ⟨e, rfl⟩
  | ok tok =>
    have h : mintToken env ctx tn td ta g st =
        (.ok tok, (mintToken env ctx tn td ta g st).2) := by
      rw [← hr]
    have := (mintToken_ok_inv h).1
    omega

theorem mintToken_no_panic {env : Env} {ctx : Ctx} {tn td : String}
    {ta : Nat} {g : Option Nat} {st : PrepState}
    (h1 : 1 ≤ st.num_transactions_left) :
    (mintToken env ctx tn td ta g st).1 ≠ .error .underflowPanic := by
  unfold mintToken
  iterate 14 (all_goals (try (first | split | simp only [])))
  all_goals simp_all [u32sub]

theorem buildRefreshBox_ok_inv {env : Env} {ctx : Ctx}
    {contract : RefreshContract} {tokn : Token} {st : PrepState}
    {tx : Transaction} {st' : PrepState}
    (h : buildRefreshBox env ctx contract tokn st = (.ok tx, st')) :
    1 ≤ st.num_transactions_left ∧
    st' = { num_transactions_left := st.num_transactions_left - 1,
            inputs_for_next_tx := filterTxOutputs ctx tx.outputs,
            built_txs := st.built_txs ++ [tx] } := by
  unfold buildRefreshBox at h
  iterate 14 (all_goals (try (first | split at h | simp only [] at h)))
  all_goals injection h with h1 h2
  all_goals try injection h1
  rename_i hst
  subst h2
  subst hst
  have hn : 1 ≤ st.num_transactions_left := u32sub_ok_le (by assumption)
  exact ⟨hn, rfl⟩

theorem buildRefreshBox_error_state {env : Env} {ctx : Ctx}
    {contract : RefreshContract} {tokn : Token} {st : PrepState}
    {e : PrepareUpdateError} {st2 : PrepState}
    (h : buildRefreshBox env ctx contract tokn st = (.error e, st2)) :
    st2 = st := by
  unfold buildRefreshBox at h
  iterate 14 (all_goals (try (first | split at h | simp only [] at h)))
  all_goals injection h with h1 h2
  all_goals try injection h1
  all_goals exact h2.symm

theorem buildRefreshBox_zero {env : Env} {ctx : Ctx}
    {contract : RefreshContract} {tokn : Token} {st : PrepState}
    (hz : st.num_transactions_left = 0) :
    ∃ e, (buildRefreshBox env ctx contract tokn st).1 = .error e := by
  cases hr : (buildRefreshBox env ctx contract tokn st).1 with
  | error e => exact ⟨e, rfl⟩
  | ok tx =>
    have h : buildRefreshBox env ctx contract tokn st =
        (.ok tx, (buildRefreshBox env ctx contract tokn st).2) := by
      rw [← hr]
    have := (buildRefreshBox_ok_inv h).1
    omega

theorem buildRefreshBox_no_panic {env : Env} {ctx : Ctx}
    {contract : RefreshContract} {tokn : Token} {st : PrepState}
    (h1 : 1 ≤ st.num_transactions_left) :
    (buildRefreshBox env ctx contract tokn st).1 ≠ .error .underflowPanic := by
  unfold buildRefreshBox
  iterate 14 (all_goals (try (first | split | simp only [])))
  all_goals simp_all [u32sub]

theorem mintToken_error_not_panic {env : Env} {ctx : Ctx} {tn td : String}
    {ta : Nat} {g : Option Nat} {st : PrepState} {e : PrepareUpdateError}
    {st2 : PrepState} (h1 : 1 ≤ st.num_transactions_left)
    (h : mintToken env ctx tn td ta g st = (.error e, st2)) :
    e ≠ .underflowPanic := by
  intro hh
  exact mintToken_no_panic h1 (by rw [h, hh])

theorem buildRefreshBox_error_not_panic {env : Env} {ctx : Ctx}
    {contract : RefreshContract} {tokn : Token} {st : PrepState}
    {e : PrepareUpdateError} {st2 : PrepState}
    (h1 : 1 ≤ st.num_transactions_left)
    (h : buildRefreshBox env ctx contract tokn st = (.error e, st2)) :
    e ≠ .underflowPanic := by
  intro hh
  exact buildRefreshBox_no_panic h1 (by rw [h, hh])

theorem initStep_inv {env : Env} {ctx : Ctx} {s0 : ExecSt}
    (h : initStep env ctx = .ok s0) :
    s0.prep.num_transactions_left = 7 ∧ s0.prep.built_txs = [] ∧
    s0.need_pool_contract_update = false ∧
    s0.need_ballot_contract_update = false ∧
    s0.new_oracle_config = ctx.config := by
  unfold initStep at h
  iterate 6 (all_goals (try (first | split at h | simp only [] at h)))
  all_goals try (injection h; done)
  all_goals injection h with h
  all_goals subst h
  exact ⟨rfl, rfl, rfl, rfl, rfl⟩

theorem initStep_no_panic {env : Env} {ctx : Ctx} :
    initStep env ctx ≠ .error .underflowPanic := by
  unfold initStep
  iterate 6 (all_goals (try (first | split | simp only [])))
  all_goals simp

theorem mintOracleStep_sum {env : Env} {ctx : Ctx}
    {details : Option TokenMintDetails} {s s' : ExecSt}
    (h : mintOracleStep env ctx details s = .ok s') :
    s'.prep.num_transactions_left + s'.prep.built_txs.length =
      s.prep.num_transactions_left + s.prep.built_txs.length ∧
    s.prep.num_transactions_left - 1 ≤ s'.prep.num_transactions_left := by
  unfold mintOracleStep at h
  iterate 6 (all_goals (try (first | split at h | simp only [] at h)))
  all_goals try (injection h; done)
  all_goals injection h with h
  all_goals subst h
  all_goals try exact ⟨rfl, by omega⟩
  all_goals
    obtain ⟨h1, -, -, -, -, tx, -, -, -, -, -, -, -, hst⟩ :=
      mintToken_ok_inv (by assumption)
  all_goals subst hst
  all_goals refine ⟨?_, ?_⟩ <;> simp <;> omega

theorem mintOracleStep_no_panic {env : Env} {ctx : Ctx}
    {details : Option TokenMintDetails} {s : ExecSt}
    (h1 : 1 ≤ s.prep.num_transactions_left) :
    mintOracleStep env ctx details s ≠ .error .underflowPanic := by
  unfold mintOracleStep
  iterate 6 (all_goals (try (first | split | simp only [])))
  all_goals try simp
  all_goals intro hcon
  all_goals try injection hcon with hcon
  all_goals exact mintToken_error_not_panic h1 (by assumption) hcon

theorem mintBallotStep_sum {env : Env} {ctx : Ctx}
    {details : Option TokenMintDetails} {s s' : ExecSt}
    (h : mintBallotStep env ctx details s = .ok s') :
    s'.prep.num_transactions_left + s'.prep.built_txs.length =
      s.prep.num_transactions_left + s.prep.built_txs.length ∧
    s.prep.num_transactions_left - 1 ≤ s'.prep.num_transactions_left := by
  unfold mintBallotStep at h
  iterate 6 (all_goals (try (first | split at h | simp only [] at h)))
  all_goals try (injection h; done)
  all_goals injection h with h
  all_goals subst h
  all_goals try exact ⟨rfl, by omega⟩
  all_goals
    obtain ⟨h1, -, -, -, -, tx, -, -, -, -, -, -, -, hst⟩ :=
      mintToken_ok_inv (by assumption)
  all_goals subst hst
  all_goals refine ⟨?_, ?_⟩ <;> simp <;> omega

theorem mintBallotStep_no_panic {env : Env} {ctx : Ctx}
    {details : Option TokenMintDetails} {s : ExecSt}
    (h1 : 1 ≤ s.prep.num_transactions_left) :
    mintBallotStep env ctx details s ≠ .error .underflowPanic := by
  unfold mintBallotStep
  iterate 6 (all_goals (try (first | split | simp only [])))
  all_goals try simp
  all_goals intro hcon
  all_goals try injection hcon with hcon
  all_goals exact mintToken_error_not_panic h1 (by assumption) hcon

theorem mintRewardStep_sum {env : Env} {ctx : Ctx}
    {details : Option TokenMintDetails} {s s' : ExecSt}
    (h : mintRewardStep env ctx details s = .ok s') :
    s'.prep.num_transactions_left + s'.prep.built_txs.length =
      s.prep.num_transactions_left + s.prep.built_txs.length ∧
    s.prep.num_transactions_left - 1 ≤ s'.prep.num_transactions_left := by
  unfold mintRewardStep at h
  iterate 6 (all_goals (try (first | split at h | simp only [] at h)))
  all_goals try (injection h; done)
  all_goals injection h with h
  all_goals subst h
  all_goals try exact ⟨rfl, by omega⟩
  all_goals
    obtain ⟨h1, -, -, -, -, tx, -, -, -, -, -, -, -, hst⟩ :=
      mintToken_ok_inv (by assumption)
  all_goals subst hst
  all_goals refine ⟨?_, ?_⟩ <;> simp <;> omega

theorem mintRewardStep_no_panic {env : Env} {ctx : Ctx}
    {details : Option TokenMintDetails} {s : ExecSt}
    (h1 : 1 ≤ s.prep.num_transactions_left) :
    mintRewardStep env ctx details s ≠ .error .underflowPanic := by
  unfold mintRewardStep
  iterate 6 (all_goals (try (first | split | simp only [])))
  all_goals try simp
  all_goals intro hcon
  all_goals try injection hcon with hcon
  all_goals exact mintToken_error_not_panic h1 (by assumption) hcon

theorem ballotCascadeStep_inv {env : Env} {s s' : ExecSt}
    (h : ballotCascadeStep env s = .ok s') :
    s'.prep = s.prep ∧
    s'.need_pool_contract_update = s.need_pool_contract_update ∧
    s'.need_ballot_contract_update = s.need_ballot_contract_update := by
  unfold ballotCascadeStep at h
  iterate 4 (all_goals (try (first | split at h | simp only [] at h)))
  all_goals try (injection h; done)
  all_goals injection h with h
  all_goals subst h
  all_goals exact ⟨rfl, rfl, rfl⟩

theorem ballotCascadeStep_no_panic {env : Env} {s : ExecSt} :
    ballotCascadeStep env s ≠ .error .underflowPanic := by
  unfold ballotCascadeStep
  iterate 4 (all_goals (try (first | split | simp only [])))
  all_goals simp

theorem poolCascadeStep_inv {env : Env} {config : UpdateBootstrapConfig}
    {s s' : ExecSt} (h : poolCascadeStep env config s = .ok s') :
    s'.prep = s.prep ∧
    s'.need_pool_contract_update = s.need_pool_contract_update ∧
    s'.need_ballot_contract_update = s.need_ballot_contract_update := by
  unfold poolCascadeStep at h
  iterate 4 (all_goals (try (first | split at h | simp only [] at h)))
  all_goals try (injection h; done)
  all_goals injection h with h
  all_goals subst h
  all_goals exact ⟨rfl, rfl, rfl⟩

theorem poolCascadeStep_no_panic {env : Env} {config : UpdateBootstrapConfig}
    {s : ExecSt} : poolCascadeStep env config s ≠ .error .underflowPanic := by
  unfold poolCascadeStep
  iterate 4 (all_goals (try (first | split | simp only [])))
  all_goals simp

theorem mintOracleStep_update_wrapper {env : Env} {ctx : Ctx}
    {details : Option TokenMintDetails} {s s' : ExecSt}
    (h : mintOracleStep env ctx details s = .ok s') :
    s'.new_oracle_config.update_box_wrapper_inputs =
      s.new_oracle_config.update_box_wrapper_inputs := by
  unfold mintOracleStep at h
  iterate 6 (all_goals (try (first | split at h | simp only [] at h)))
  all_goals try (injection h; done)
  all_goals injection h with h
  all_goals subst h
  all_goals rfl

theorem mintBallotStep_update_wrapper {env : Env} {ctx : Ctx}
    {details : Option TokenMintDetails} {s s' : ExecSt}
    (h : mintBallotStep env ctx details s = .ok s') :
    s'.new_oracle_config.update_box_wrapper_inputs =
      s.new_oracle_config.update_box_wrapper_inputs := by
  unfold mintBallotStep at h
  iterate 6 (all_goals (try (first | split at h | simp only [] at h)))
  all_goals try (injection h; done)
  all_goals injection h with h
  all_goals subst h
  all_goals rfl

theorem mintRewardStep_update_wrapper {env : Env} {ctx : Ctx}
    {details : Option TokenMintDetails} {s s' : ExecSt}
    (h : mintRewardStep env ctx details s = .ok s') :
    s'.new_oracle_config.update_box_wrapper_inputs =
      s.new_oracle_config.update_box_wrapper_inputs := by
  unfold mintRewardStep at h
  iterate 6 (all_goals (try (first | split at h | simp only [] at h)))
  all_goals try (injection h; done)
  all_goals injection h with h
  all_goals subst h
  all_goals rfl

theorem refreshStep_update_wrapper {env : Env} {ctx : Ctx}
    {config : UpdateBootstrapConfig} {s s' : ExecSt}
    (h : refreshStep env ctx config s = .ok s') :
    s'.new_oracle_config.update_box_wrapper_inputs =
      s.new_oracle_config.update_box_wrapper_inputs := by
  unfold refreshStep at h
  iterate 10 (all_goals (try (first | split at h | simp only [] at h)))
  all_goals try (injection h; done)
  all_goals injection h with h
  all_goals subst h
  all_goals rfl

theorem ballotCascadeStep_cfg {env : Env} {s s' : ExecSt}
    (h : ballotCascadeStep env s = .ok s') :
    s'.new_oracle_config.update_box_wrapper_inputs =
      s.new_oracle_config.update_box_wrapper_inputs ∧
    s'.new_oracle_config.token_ids = s.new_oracle_config.token_ids := by
  unfold ballotCascadeStep at h
  iterate 4 (all_goals (try (first | split at h | simp only [] at h)))
  all_goals try (injection h; done)
  all_goals injection h with h
  all_goals subst h
  all_goals exact ⟨rfl, rfl⟩

theorem poolCascadeStep_cfg {env : Env} {config : UpdateBootstrapConfig}
    {s s' : ExecSt} (h : poolCascadeStep env config s = .ok s') :
    s'.new_oracle_config.update_box_wrapper_inputs =
      s.new_oracle_config.update_box_wrapper_inputs ∧
    s'.new_oracle_config.token_ids = s.new_oracle_config.token_ids := by
  unfold poolCascadeStep at h
  iterate 4 (all_goals (try (first | split at h | simp only [] at h)))
  all_goals try (injection h; done)
  all_goals injection h with h
  all_goals subst h
  all_goals exact ⟨rfl, rfl⟩

theorem refreshStep_sum {env : Env} {ctx : Ctx}
    {config : UpdateBootstrapConfig} {s s' : ExecSt}
    (h : refreshStep env ctx config s = .ok s') :
    s'.prep.num_transactions_left + s'.prep.built_txs.length =
      s.prep.num_transactions_left + s.prep.built_txs.length ∧
    s.prep.num_transactions_left - 2 ≤ s'.prep.num_transactions_left ∧
    s'.need_ballot_contract_update = s.need_ballot_contract_update := by
  unfold refreshStep at h
  iterate 10 (all_goals (try (first | split at h | simp only [] at h)))
  all_goals try (injection h; done)
  all_goals injection h with h
  all_goals subst h
  all_goals try exact ⟨rfl, by omega, rfl⟩
  all_goals
    obtain ⟨h1, -, -, -, -, tx1, -, -, -, -, -, -, -, hst1⟩ :=
      mintToken_ok_inv (by assumption)
  all_goals obtain ⟨h2, hst2⟩ := buildRefreshBox_ok_inv (by assumption)
  all_goals subst hst1
  all_goals subst hst2
  all_goals refine ⟨?_, ?_, rfl⟩ <;> simp <;> simp at h2 <;> omega

theorem refreshStep_no_panic {env : Env} {ctx : Ctx}
    {config : UpdateBootstrapConfig} {s : ExecSt}
    (h2 : 2 ≤ s.prep.num_transactions_left) :
    refreshStep env ctx config s ≠ .error .underflowPanic := by
  unfold refreshStep
  iterate 10 (all_goals (try (first | split | simp only [])))
  all_goals try simp
  all_goals intro hcon
  all_goals try injection hcon with hcon
  all_goals try (refine mintToken_error_not_panic ?_ (by assumption) hcon; omega)
  all_goals obtain ⟨hh1, -, -, -, -, tx9, -, -, -, -, -, -, -, hst⟩ :=
    mintToken_ok_inv (by assumption)
  all_goals refine buildRefreshBox_error_not_panic ?_ (by assumption) hcon
  all_goals rw [hst]
  all_goals simp
  all_goals omega

theorem updateStep_sum {env : Env} {ctx : Ctx}
    {config : UpdateBootstrapConfig} {s s' : ExecSt}
    (h : updateStep env ctx config s = .ok s') :
    s'.prep.num_transactions_left + s'.prep.built_txs.length =
      s.prep.num_transactions_left + s.prep.built_txs.length ∧
    s.prep.num_transactions_left - 1 ≤ s'.prep.num_transactions_left := by
  unfold updateStep at h
  iterate 8 (all_goals (try (first | split at h | simp only [] at h)))
  all_goals try (injection h; done)
  all_goals injection h with h
  all_goals subst h
  all_goals try exact ⟨rfl, by omega⟩
  all_goals
    obtain ⟨h1, -, -, -, -, tx, -, -, -, -, -, -, -, hst⟩ :=
      mintToken_ok_inv (by assumption)
  all_goals subst hst
  all_goals refine ⟨?_, ?_⟩ <;> simp <;> omega

theorem updateStep_no_panic {env : Env} {ctx : Ctx}
    {config : UpdateBootstrapConfig} {s : ExecSt}
    (h1 : 1 ≤ s.prep.num_transactions_left) :
    updateStep env ctx config s ≠ .error .underflowPanic := by
  unfold updateStep
  iterate 8 (all_goals (try (first | split | simp only [])))
  all_goals try simp
  all_goals intro hcon
  all_goals try injection hcon with hcon
  all_goals exact mintToken_error_not_panic h1 (by assumption) hcon

theorem updateStep_ok_inv {env : Env} {ctx : Ctx}
    {config : UpdateBootstrapConfig} {s s' : ExecSt}
    (hcond : config.update_contract_parameters.isSome = true ∨
      config.tokens_to_mint.ballot_tokens.isSome = true)
    (h : updateStep env ctx config s = .ok s') :
    s'.need_ballot_contract_update = true ∧
    s'.need_pool_contract_update = true ∧
    s'.new_oracle_config.token_ids.pool_nft_token_id =
      s.new_oracle_config.token_ids.pool_nft_token_id ∧
    s'.new_oracle_config.token_ids.ballot_token_id =
      s.new_oracle_config.token_ids.ballot_token_id ∧
    s'.new_oracle_config.update_box_wrapper_inputs.contract_inputs =
      { contract_parameters := config.update_contract_parameters.getD
          s.new_oracle_config.update_box_wrapper_inputs.contract_inputs.contract_parameters,
        pool_nft_token_id := s.new_oracle_config.token_ids.pool_nft_token_id,
        ballot_token_id := s.new_oracle_config.token_ids.ballot_token_id } ∧
    ∃ uc, env.updateLoad
        s'.new_oracle_config.update_box_wrapper_inputs.contract_inputs = .ok uc ∧
      ∃ utx b0 rest tx,
        (utx.outputCandidates.head?.map ErgoBoxCandidate.ergoTree) =
          some uc.ergoTree ∧
        env.sign utx (b0 :: rest) = .ok tx ∧
        s'.prep.built_txs = s.prep.built_txs ++ [tx] := by
  unfold updateStep at h
  iterate 8 (all_goals (try (first | split at h | simp only [] at h)))
  all_goals try (injection h; done)
  all_goals try
    (exact absurd (show (config.update_contract_parameters.isSome ||
        config.tokens_to_mint.ballot_tokens.isSome) = true by
          rcases hcond with hc | hc <;> simp [hc]) (by assumption))
  all_goals try injection h with h
  all_goals subst h
  all_goals
    obtain ⟨h1, -, b0, rest, utx, tx, -, -, -, -, -, hhead, hsign, hst⟩ :=
      mintToken_ok_inv (by assumption)
  all_goals subst hst
  all_goals exact ⟨rfl, rfl, rfl, rfl, rfl, _, by assumption, utx, b0, rest, tx,
    hhead, hsign, by simp⟩

theorem refreshStep_noDetails {env : Env} {ctx : Ctx}
    {config : UpdateBootstrapConfig} {s : ExecSt}
    (hcond : config.refresh_contract_parameters.isSome = true ∨
      config.tokens_to_mint.oracle_tokens.isSome = true)
    (hnone : config.tokens_to_mint.refresh_nft = none) :
    refreshStep env ctx config s = .error .noMintDetails := by
  have hb : (config.refresh_contract_parameters.isSome ||
      config.tokens_to_mint.oracle_tokens.isSome) = true := by
    rcases hcond with hc | hc <;> simp [hc]
  unfold refreshStep
  rw [hb, hnone]
  simp

theorem mintBallotStep_none {env : Env} {ctx : Ctx} {s : ExecSt} :
    mintBallotStep env ctx none s = .ok s := rfl

theorem mintRewardStep_none {env : Env} {ctx : Ctx} {s : ExecSt} :
    mintRewardStep env ctx none s = .ok s := rfl

theorem submitAll_spec (env : Env) (txs : List Transaction) :
    (submitAll env txs).2 = txs.takeWhile (submitOk env) ∧
    ((submitAll env txs).1 = .ok () ↔
      ∀ tx ∈ txs, submitOk env tx = true) := by
  induction txs with
  | nil => simp [submitAll]
  | cons t rest ih =>
    unfold submitAll
    cases hsub : env.submit t with
    | error e =>
      simp [List.takeWhile, submitOk, hsub]
    | ok v =>
      simp only [List.takeWhile, submitOk, hsub]
      simp [ih.1, ih.2, submitOk, hsub]

/-- C5: for every `n`, `calc_target_balance(n)` returns
`n × per_step_value + n × per_step_fee`, and if the computation exceeds the
value type's range (either multiplication or the addition), it returns an
overflow error — it never saturates or wraps. -/
theorem claim_c5_calc_target_balance (ctx : Ctx) (n : Nat) :
    (ctx.input.erg_value_per_box * n + ctx.input.tx_fee * n ≤ BoxValueMAX →
      calcTargetBalance ctx n =
        .ok (ctx.input.erg_value_per_box * n + ctx.input.tx_fee * n)) ∧
    (BoxValueMAX < ctx.input.erg_value_per_box * n + ctx.input.tx_fee * n →
      calcTargetBalance ctx n = .error .overflow) := by
  constructor
  · intro h
    unfold calcTargetBalance checkedMulU32 checkedAdd
    rw [if_neg (by omega), if_neg (by omega)]
    simp only [Bind.bind, Except.bind]
    rw [if_neg (by omega)]
  · intro h
    unfold calcTargetBalance checkedMulU32 checkedAdd
    rcases Nat.lt_or_ge BoxValueMAX (ctx.input.erg_value_per_box * n) with h1 | h1
    · rw [if_pos (by omega)]
      rfl
    · rw [if_neg (by omega)]
      rcases Nat.lt_or_ge BoxValueMAX (ctx.input.tx_fee * n) with h2 | h2
      · rw [if_pos (by omega)]
        rfl
      · rw [if_neg (by omega)]
        simp only [Bind.bind, Except.bind]
        rw [if_pos (by omega)]

/-- C4: the remaining-transaction counter decreases by exactly 1 per
successful step (token mint or refresh-box build), every successful step
starts from a counter of at least 1, and a step attempted with the counter
at zero fails with an error instead of wrapping the `u32` around (the
`num_transactions_left - 1` subtraction is a Rust arithmetic panic on
underflow, embedded as an error). -/
theorem claim_c4_counter_decrement (env : Env) (ctx : Ctx) (tn td : String)
    (ta : Nat) (g : Option Nat) (contract : RefreshContract) (tokn : Token)
    (st : PrepState) :
    (∀ tok st', mintToken env ctx tn td ta g st = (.ok tok, st') →
       1 ≤ st.num_transactions_left ∧
       st'.num_transactions_left + 1 = st.num_transactions_left) ∧
    (∀ tx st', buildRefreshBox env ctx contract tokn st = (.ok tx, st') →
       1 ≤ st.num_transactions_left ∧
       st'.num_transactions_left + 1 = st.num_transactions_left) ∧
    (st.num_transactions_left = 0 →
       (∃ e, (mintToken env ctx tn td ta g st).1 = .error e) ∧
       (∃ e, (buildRefreshBox env ctx contract tokn st).1 = .error e)) := by
  refine ⟨?_, ?_, ?_⟩
  · intro tok st' h
    obtain ⟨h1, -, -, -, -, tx, -, -, -, -, -, -, -, hst⟩ := mintToken_ok_inv h
    subst hst
    simp
    omega
  · intro tx st' h
    obtain ⟨h1, hst⟩ := buildRefreshBox_ok_inv h
    subst hst
    simp
    omega
  · intro hz
    exact ⟨mintToken_zero hz, buildRefreshBox_zero hz⟩

/-- C9: if `mint_token` or `build_refresh_box` returns an error — for any
reason and under any collaborator behaviour — the orchestrator state
(counter, transaction log, spendable set) is exactly the state on entry. -/
theorem claim_c9_error_leaves_state (env : Env) (ctx : Ctx) (tn td : String)
    (ta : Nat) (g : Option Nat) (contract : RefreshContract) (tokn : Token)
    (st : PrepState) :
    (∀ e st2, mintToken env ctx tn td ta g st = (.error e, st2) → st2 = st) ∧
    (∀ e st2, buildRefreshBox env ctx contract tokn st = (.error e, st2) →
       st2 = st) := by
  exact ⟨fun e st2 h => mintToken_error_state h,
         fun e st2 h => buildRefreshBox_error_state h⟩

/-- C2: after every successful step (token mint or refresh-box build) the
spendable set entering the next step is exactly the subset of the just
signed transaction's outputs whose guard script equals the operator's
wallet guard, and every record in it is wallet-guarded — protocol-guarded
outputs are never kept. -/
theorem claim_c2_spendable_set (env : Env) (ctx : Ctx) (tn td : String)
    (ta : Nat) (g : Option Nat) (contract : RefreshContract) (tokn : Token)
    (st : PrepState) :
    (∀ tok st', mintToken env ctx tn td ta g st = (.ok tok, st') →
       ∃ tx, st'.built_txs = st.built_txs ++ [tx] ∧
         st'.inputs_for_next_tx =
           tx.outputs.filter (fun b => b.ergoTree == ctx.wallet_pk_ergo_tree) ∧
         ∀ b ∈ st'.inputs_for_next_tx,
           b.ergoTree = ctx.wallet_pk_ergo_tree) ∧
    (∀ tx0 st', buildRefreshBox env ctx contract tokn st = (.ok tx0, st') →
       st'.built_txs = st.built_txs ++ [tx0] ∧
       st'.inputs_for_next_tx =
         tx0.outputs.filter (fun b => b.ergoTree == ctx.wallet_pk_ergo_tree) ∧
       ∀ b ∈ st'.inputs_for_next_tx,
         b.ergoTree = ctx.wallet_pk_ergo_tree) := by
  constructor
  · intro tok st' h
    obtain ⟨-, -, -, -, -, tx, -, -, -, -, -, -, -, hst⟩ := mintToken_ok_inv h
    subst hst
    refine ⟨tx, rfl, rfl, ?_⟩
    intro b hb
    simp only [filterTxOutputs, List.mem_filter] at hb
    exact of_decide_eq_true hb.2

  · intro tx0 st' h
    obtain ⟨-, hst⟩ := buildRefreshBox_ok_inv h
    subst hst
    refine ⟨rfl, rfl, ?_⟩
    intro b hb
    simp only [filterTxOutputs, List.mem_filter] at hb
    exact of_decide_eq_true hb.2


/-- C3: the identity of every newly minted asset equals the identity of
the first record of the set the Coin Selector returned to fund that
minting transaction. -/
theorem claim_c3_token_id_from_first_box (env : Env) (ctx : Ctx)
    (tn td : String) (ta : Nat) (g : Option Nat) (st : PrepState) :
    ∀ tok st', mintToken env ctx tn td ta g st = (.ok tok, st') →
      ∃ tb b0 rest,
        calcTargetBalance ctx st.num_transactions_left = .ok tb ∧
        env.select st.inputs_for_next_tx tb [] = .ok (b0, rest) ∧
        tok.tokenId = b0.boxId := by
  intro tok st' h
  obtain ⟨-, tb, b0, rest, -, -, htb, hsel, hid, -⟩ := mintToken_ok_inv h
  exact ⟨tb, b0, rest, htb, hsel, hid⟩

/-- C6: if any pre-broadcast step of `execute` fails, `execute` returns
that error and no transaction at all is submitted (the submission loop at
the end of `execute` is never reached). -/
theorem claim_c6_abort_before_broadcast (env : Env) (ctx : Ctx)
    (config : UpdateBootstrapConfig) (e : PrepareUpdateError)
    (h : executeSteps env ctx config = .error e) :
    execute env ctx config = (.error e, []) := by
  unfold execute
  rw [h]

/-- C8: the broadcast stage submits the built transactions strictly in
construction order: the submitted list is exactly the longest prefix of
the log on which the submitter succeeds (so a failure at transaction `i`
leaves `1..i-1` submitted and `i..n` never sent), and `execute` succeeds
exactly when every transaction in the log is accepted. -/
theorem claim_c8_broadcast_order (env : Env) (ctx : Ctx)
    (config : UpdateBootstrapConfig) (s : ExecSt)
    (h : executeSteps env ctx config = .ok s) :
    (execute env ctx config).2 = s.prep.built_txs.takeWhile (submitOk env) ∧
    ((execute env ctx config).1 = .ok s.new_oracle_config ↔
      ∀ tx ∈ s.prep.built_txs, submitOk env tx = true) := by
  unfold execute
  rw [h]
  obtain ⟨h2, h1⟩ := submitAll_spec env s.prep.built_txs
  cases hs : submitAll env s.prep.built_txs with
  | mk r sub =>
    rw [hs] at h2 h1
    cases r with
    | error e2 => simp_all
    | ok u => simp_all

/-- C10: in every run of `execute`'s step phase, started from the fixed
budget of 7, at most six decrements occur (five mints plus one refresh-box
build), so the counter stays at least 1 and in particular the
`num_transactions_left - 1` computed for each remainder output never
underflows: the underflow-panic error is unreachable, and on success the
counter plus the number of built transactions equals 7 with the counter
still at least 1. -/
theorem claim_c10_budget_invariant (env : Env) (ctx : Ctx)
    (config : UpdateBootstrapConfig) :
    executeSteps env ctx config ≠ .error .underflowPanic ∧
    ∀ s, executeSteps env ctx config = .ok s →
      s.prep.num_transactions_left + s.prep.built_txs.length = 7 ∧
      1 ≤ s.prep.num_transactions_left ∧
      s.prep.built_txs.length ≤ 6 := by
  constructor
  · intro hpan
    unfold executeSteps at hpan
    rw [exceptBind_err] at hpan
    rcases hpan with h0 | ⟨s0, h0, hpan⟩
    · exact initStep_no_panic h0
    obtain ⟨hn0, hb0, -, -, -⟩ := initStep_inv h0
    rw [exceptBind_err] at hpan
    rcases hpan with h1 | ⟨s1, h1, hpan⟩
    · exact mintOracleStep_no_panic (by omega) h1
    obtain ⟨hs1, hl1⟩ := mintOracleStep_sum h1
    rw [exceptBind_err] at hpan
    rcases hpan with h2 | ⟨s2, h2, hpan⟩
    · exact mintBallotStep_no_panic (by omega) h2
    obtain ⟨hs2, hl2⟩ := mintBallotStep_sum h2
    rw [exceptBind_err] at hpan
    rcases hpan with h3 | ⟨s3, h3, hpan⟩
    · exact mintRewardStep_no_panic (by omega) h3
    obtain ⟨hs3, hl3⟩ := mintRewardStep_sum h3
    rw [exceptBind_err] at hpan
    rcases hpan with h4 | ⟨s4, h4, hpan⟩
    · exact refreshStep_no_panic (by omega) h4
    obtain ⟨hs4, hl4, -⟩ := refreshStep_sum h4
    rw [exceptBind_err] at hpan
    rcases hpan with h5 | ⟨s5, h5, hpan⟩
    · exact updateStep_no_panic (by omega) h5
    obtain ⟨hs5, hl5⟩ := updateStep_sum h5
    rw [exceptBind_err] at hpan
    rcases hpan with h6 | ⟨s6, h6, hpan⟩
    · exact ballotCascadeStep_no_panic h6
    exact poolCascadeStep_no_panic hpan
  · intro s hok
    unfold executeSteps at hok
    rw [exceptBind_ok] at hok
    obtain ⟨s0, h0, hok⟩ := hok
    obtain ⟨hn0, hb0, -, -, -⟩ := initStep_inv h0
    rw [exceptBind_ok] at hok
    obtain ⟨s1, h1, hok⟩ := hok
    obtain ⟨hs1, hl1⟩ := mintOracleStep_sum h1
    rw [exceptBind_ok] at hok
    obtain ⟨s2, h2, hok⟩ := hok
    obtain ⟨hs2, hl2⟩ := mintBallotStep_sum h2
    rw [exceptBind_ok] at hok
    obtain ⟨s3, h3, hok⟩ := hok
    obtain ⟨hs3, hl3⟩ := mintRewardStep_sum h3
    rw [exceptBind_ok] at hok
    obtain ⟨s4, h4, hok⟩ := hok
    obtain ⟨hs4, hl4, -⟩ := refreshStep_sum h4
    rw [exceptBind_ok] at hok
    obtain ⟨s5, h5, hok⟩ := hok
    obtain ⟨hs5, hl5⟩ := updateStep_sum h5
    rw [exceptBind_ok] at hok
    obtain ⟨s6, h6, hok⟩ := hok
    obtain ⟨hp6, -, -⟩ := ballotCascadeStep_inv h6
    obtain ⟨hp7, -, -⟩ := poolCascadeStep_inv hok
    have hb0len : s0.prep.built_txs.length = 0 := by rw [hb0]; rfl
    rw [hp7, hp6]
    omega

/-- C7: when an update replacement is requested (update contract
parameters supplied or a ballot-asset mint requested) and the run
succeeds, both cascade flags end true; the update contract inputs
recorded in the output configuration are the NEWLY REBUILT ones — the
supplied template (or, when none was supplied, the starting
configuration's template, unchanged by the earlier steps) together with
the working pool-NFT and ballot identities; and the update-NFT minting
transaction (the last one built) has as its first output candidate the
minted-asset record guarded by the script of the update contract loaded
from exactly those rebuilt inputs — the guard override passed to
`mint_token`, replacing the wallet-guard default. -/
theorem claim_c7_update_nft_guard (env : Env) (ctx : Ctx)
    (config : UpdateBootstrapConfig) (s : ExecSt)
    (hcond : config.update_contract_parameters.isSome = true ∨
      config.tokens_to_mint.ballot_tokens.isSome = true)
    (h : executeSteps env ctx config = .ok s) :
    s.need_ballot_contract_update = true ∧
    s.need_pool_contract_update = true ∧
    s.new_oracle_config.update_box_wrapper_inputs.contract_inputs =
      { contract_parameters := config.update_contract_parameters.getD
          ctx.config.update_box_wrapper_inputs.contract_inputs.contract_parameters,
        pool_nft_token_id := s.new_oracle_config.token_ids.pool_nft_token_id,
        ballot_token_id := s.new_oracle_config.token_ids.ballot_token_id } ∧
    ∃ uc, env.updateLoad
        s.new_oracle_config.update_box_wrapper_inputs.contract_inputs = .ok uc ∧
      ∃ utx b0 rest tx,
        (utx.outputCandidates.head?.map ErgoBoxCandidate.ergoTree) =
          some uc.ergoTree ∧
        env.sign utx (b0 :: rest) = .ok tx ∧
        s.prep.built_txs.getLast? = some tx := by
  unfold executeSteps at h
  rw [exceptBind_ok] at h
  obtain ⟨s0, h0, h⟩ := h
  rw [exceptBind_ok] at h
  obtain ⟨s1, h1, h⟩ := h
  rw [exceptBind_ok] at h
  obtain ⟨s2, h2, h⟩ := h
  rw [exceptBind_ok] at h
  obtain ⟨s3, h3, h⟩ := h
  rw [exceptBind_ok] at h
  obtain ⟨s4, h4, h⟩ := h
  rw [exceptBind_ok] at h
  obtain ⟨s5, h5, h⟩ := h
  rw [exceptBind_ok] at h
  obtain ⟨s6, h6, h⟩ := h
  obtain ⟨-, -, -, -, hcfg0⟩ := initStep_inv h0
  have hw1 := mintOracleStep_update_wrapper h1
  have hw2 := mintBallotStep_update_wrapper h2
  have hw3 := mintRewardStep_update_wrapper h3
  have hw4 := refreshStep_update_wrapper h4
  obtain ⟨hu1, hu2, hpid, hbid, hci, uc, hload, utx, b0, rest, tx,
    hhead, hsign, hbuilt⟩ := updateStep_ok_inv hcond h5
  obtain ⟨hp6, hf6p, hf6b⟩ := ballotCascadeStep_inv h6
  obtain ⟨hw6, ht6⟩ := ballotCascadeStep_cfg h6
  obtain ⟨hp7, hf7p, hf7b⟩ := poolCascadeStep_inv h
  obtain ⟨hw7, ht7⟩ := poolCascadeStep_cfg h
  refine ⟨by rw [hf7b, hf6b, hu1], by rw [hf7p, hf6p, hu2], ?_,
    uc, ?_, utx, b0, rest, tx, hhead, hsign, ?_⟩
  · rw [hw7, hw6, hci, ht7, ht6, hpid, hbid, hw4, hw3, hw2, hw1, hcfg0]
  · rw [hw7, hw6]
    exact hload
  · rw [hp7, hp6, hbuilt]
    exact List.getLast?_concat _

/-- C1 counterexample: for a concrete all-succeeding environment and a
specification requesting only an oracle-asset mint (no refresh-NFT mint
details, no other mints, no new contract parameters), `execute` does NOT
produce one signed transaction and a reconfigured output — it fails with
the missing-mint-details error and submits nothing, because minting oracle
tokens forces the refresh cascade (prepare_update.rs lines 385-386), which
demands refresh-NFT mint details (lines 396-399). -/
theorem claim_c1_counterexample :
    execute envT ctxT cfgOracleOnly = (.error .noMintDetails, []) ∧
    ∀ c, (execute envT ctxT cfgOracleOnly).1 ≠ .ok c := by
  constructor
  · rfl
  · intro c hc
    rw [show (execute envT ctxT cfgOracleOnly).1 = .error .noMintDetails
      from rfl] at hc
    cases hc

/-- C1 amended: if the update specification requests only an oracle-asset
mint (oracle mint details present; no ballot, reward, refresh-NFT or
update-NFT mints; no new contract parameters), then — whatever the
external collaborators do — `execute` returns an error and submits no
transaction: the oracle mint triggers the refresh cascade, which fails
with a missing-mint-details error if it is even reached. -/
theorem claim_c1_oracle_only_fails (env : Env) (ctx : Ctx)
    (config : UpdateBootstrapConfig)
    (ho : config.tokens_to_mint.oracle_tokens.isSome = true)
    (hrn : config.tokens_to_mint.refresh_nft = none)
    (hbt : config.tokens_to_mint.ballot_tokens = none)
    (hrw : config.tokens_to_mint.reward_tokens = none) :
    ∃ e, execute env ctx config = (.error e, []) := by
  have hsteps : ∃ e, executeSteps env ctx config = .error e := by
    unfold executeSteps
    cases h0 : initStep env ctx with
    | error e => exact ⟨e, by simp [Bind.bind, Except.bind, h0]⟩
    | ok s0 =>
      cases h1 : mintOracleStep env ctx config.tokens_to_mint.oracle_tokens s0 with
      | error e => exact ⟨e, by simp [Bind.bind, Except.bind, h0, h1]⟩
      | ok s1 =>
        refine ⟨.noMintDetails, ?_⟩
        simp [Bind.bind, Except.bind, h0, h1, hbt, hrw,
          mintBallotStep_none, mintRewardStep_none,
          refreshStep_noDetails (Or.inr ho) hrn]
  obtain ⟨e, he⟩ := hsteps
  exact ⟨e, by unfold execute; rw [he]⟩

/-- Witness for C5 at concrete inputs. -/
theorem claim_c5_witness :
    ctxT.input.erg_value_per_box * 7 + ctxT.input.tx_fee * 7 ≤ BoxValueMAX ∧
    calcTargetBalance ctxT 7 = .ok 140 ∧
    BoxValueMAX < ctxBig.input.erg_value_per_box * 1 + ctxBig.input.tx_fee * 1 ∧
    calcTargetBalance ctxBig 1 = .error .overflow :=
  ⟨by decide,
   (claim_c5_calc_target_balance ctxT 7).1 (by decide),
   by decide,
   (claim_c5_calc_target_balance ctxBig 1).2 (by decide)⟩

/-- Witness for C4 at concrete inputs. -/
theorem claim_c4_witness :
    (1 ≤ stW.num_transactions_left ∧
      stW2.num_transactions_left + 1 = stW.num_transactions_left) ∧
    (1 ≤ stW.num_transactions_left ∧
      stW3.num_transactions_left + 1 = stW.num_transactions_left) ∧
    (∃ e, (mintToken envT ctxT "t" "d" 5 none stZ).1 = .error e) ∧
    (∃ e, (buildRefreshBox envT ctxT ⟨200⟩ tokW stZ).1 = .error e) :=
  ⟨(claim_c4_counter_decrement envT ctxT "t" "d" 5 none ⟨200⟩ tokW stW).1
      tokW stW2 rfl,
   (claim_c4_counter_decrement envT ctxT "t" "d" 5 none ⟨200⟩ tokW stW).2.1
      brWtx stW3 rfl,
   (claim_c4_counter_decrement envT ctxT "t" "d" 5 none ⟨200⟩ tokW stZ).2.2
      rfl⟩

/-- Witness for C9 at concrete inputs. -/
theorem claim_c9_witness :
    (mintToken envT ctxT "t" "d" 5 none stZ).2 = stZ ∧
    (buildRefreshBox envT ctxT ⟨200⟩ tokW stZ).2 = stZ :=
  ⟨(claim_c9_error_leaves_state envT ctxT "t" "d" 5 none ⟨200⟩ tokW stZ).1
      .boxSelector (mintToken envT ctxT "t" "d" 5 none stZ).2 rfl,
   (claim_c9_error_leaves_state envT ctxT "t" "d" 5 none ⟨200⟩ tokW stZ).2
      .boxSelector (buildRefreshBox envT ctxT ⟨200⟩ tokW stZ).2 rfl⟩

/-- Witness for C2 at concrete inputs. -/
theorem claim_c2_witness :
    (∃ tx, stW2.built_txs = stW.built_txs ++ [tx] ∧
      stW2.inputs_for_next_tx =
        tx.outputs.filter (fun b => b.ergoTree == ctxT.wallet_pk_ergo_tree) ∧
      ∀ b ∈ stW2.inputs_for_next_tx,
        b.ergoTree = ctxT.wallet_pk_ergo_tree) ∧
    (stW3.built_txs = stW.built_txs ++ [brWtx] ∧
      stW3.inputs_for_next_tx =
        brWtx.outputs.filter (fun b => b.ergoTree == ctxT.wallet_pk_ergo_tree) ∧
      ∀ b ∈ stW3.inputs_for_next_tx,
        b.ergoTree = ctxT.wallet_pk_ergo_tree) :=
  ⟨(claim_c2_spendable_set envT ctxT "t" "d" 5 none ⟨200⟩ tokW stW).1
      tokW stW2 rfl,
   (claim_c2_spendable_set envT ctxT "t" "d" 5 none ⟨200⟩ tokW stW).2
      brWtx stW3 rfl⟩

/-- Witness for C3 at concrete inputs. -/
theorem claim_c3_witness :
    ∃ tb b0 rest,
      calcTargetBalance ctxT stW.num_transactions_left = .ok tb ∧
      envT.select stW.inputs_for_next_tx tb [] = .ok (b0, rest) ∧
      tokW.tokenId = b0.boxId :=
  claim_c3_token_id_from_first_box envT ctxT "t" "d" 5 none stW tokW stW2 rfl

/-- Witness for C6 at concrete inputs. -/
theorem claim_c6_witness :
    execute envW6 ctxT cfgFull = (.error .walletData, []) :=
  claim_c6_abort_before_broadcast envW6 ctxT cfgFull .walletData rfl

/-- Witness for C8 at concrete inputs. -/
theorem claim_c8_witness :
    (execute envT ctxT cfgFull).2 =
      sC.prep.built_txs.takeWhile (submitOk envT) ∧
    ((execute envT ctxT cfgFull).1 = .ok sC.new_oracle_config ↔
      ∀ tx ∈ sC.prep.built_txs, submitOk envT tx = true) :=
  claim_c8_broadcast_order envT ctxT cfgFull sC rfl

/-- Witness for C10 at concrete inputs. -/
theorem claim_c10_witness :
    sC.prep.num_transactions_left + sC.prep.built_txs.length = 7 ∧
    1 ≤ sC.prep.num_transactions_left ∧
    sC.prep.built_txs.length ≤ 6 :=
  (claim_c10_budget_invariant envT ctxT cfgFull).2 sC rfl

/-- Witness for C7 at concrete inputs. -/
theorem claim_c7_witness :
    sC.need_ballot_contract_update = true ∧
    sC.need_pool_contract_update = true ∧
    sC.new_oracle_config.update_box_wrapper_inputs.contract_inputs =
      { contract_parameters := cfgFull.update_contract_parameters.getD
          ctxT.config.update_box_wrapper_inputs.contract_inputs.contract_parameters,
        pool_nft_token_id := sC.new_oracle_config.token_ids.pool_nft_token_id,
        ballot_token_id := sC.new_oracle_config.token_ids.ballot_token_id } ∧
    ∃ uc, envT.updateLoad
        sC.new_oracle_config.update_box_wrapper_inputs.contract_inputs = .ok uc ∧
      ∃ utx b0 rest tx,
        (utx.outputCandidates.head?.map ErgoBoxCandidate.ergoTree) =
          some uc.ergoTree ∧
        envT.sign utx (b0 :: rest) = .ok tx ∧
        sC.prep.built_txs.getLast? = some tx :=
  claim_c7_update_nft_guard envT ctxT cfgFull sC (Or.inl rfl) rfl

/-- Witness for the amended C1 at concrete inputs. -/
theorem claim_c1_witness :
    ∃ e, execute envT ctxT cfgOracleOnly = (.error e, []) :=
  claim_c1_oracle_only_fails envT ctxT cfgOracleOnly rfl rfl rfl rfl
